import Mathlib

/-!
Verification of the disaster-risk backend (`src/backend/server.py`).

The development shallowly embeds the risk classifier
`calculate_disaster_risk`, the success paths of the HTTP handlers
`get_weather_by_city`, `get_weather_by_coordinates`,
`get_weather_multiple_cities` and `get_active_alerts`, and the order in
which the routes are registered on the router.  Numeric weather fields are
modelled as rationals, the Mongo collections as lists that inserts append
to, and the external weather provider as an oracle function.
-/

namespace Server

/-- The four numeric fields of a weather snapshot that the classifier
reads from the provider JSON: temp, humidity and pressure under `main`,
and speed under `wind`. -/
structure Weather where
  temp : ℚ
  humidity : ℚ
  pressure : ℚ
  wind_speed : ℚ
  deriving DecidableEq, Repr

/-- Weights appended to `risk_factors` by the heatwave rule
(`if temp > 40: ... elif temp > 35: ...`). -/
def heat_factors (w : Weather) : List ℚ :=
  if w.temp > 40 then [0.8] else if w.temp > 35 then [0.6] else []

/-- Labels appended to `disaster_types` by the heatwave rule. -/
def heat_types (w : Weather) : List String :=
  if w.temp > 40 then ["Extreme Heatwave"]
  else if w.temp > 35 then ["Heatwave"] else []

/-- Weights appended by the flood rule
(`if humidity > 80 and pressure < 1000`). -/
def flood_factors (w : Weather) : List ℚ :=
  if w.humidity > 80 ∧ w.pressure < 1000 then [0.7] else []

/-- Labels appended by the flood rule. -/
def flood_types (w : Weather) : List String :=
  if w.humidity > 80 ∧ w.pressure < 1000 then ["Flood Risk"] else []

/-- Weights appended by the storm rule
(`if wind_speed > 20 and pressure < 990: ... elif wind_speed > 15 and
pressure < 1000: ...`). -/
def storm_factors (w : Weather) : List ℚ :=
  if w.wind_speed > 20 ∧ w.pressure < 990 then [0.9]
  else if w.wind_speed > 15 ∧ w.pressure < 1000 then [0.6] else []

/-- Labels appended by the storm rule. -/
def storm_types (w : Weather) : List String :=
  if w.wind_speed > 20 ∧ w.pressure < 990 then ["Severe Storm/Cyclone"]
  else if w.wind_speed > 15 ∧ w.pressure < 1000 then ["Storm"] else []

/-- Weights appended by the drought rule
(`if humidity < 30 and pressure > 1020 and temp > 30`). -/
def drought_factors (w : Weather) : List ℚ :=
  if w.humidity < 30 ∧ w.pressure > 1020 ∧ w.temp > 30 then [0.5] else []

/-- Labels appended by the drought rule. -/
def drought_types (w : Weather) : List String :=
  if w.humidity < 30 ∧ w.pressure > 1020 ∧ w.temp > 30
  then ["Drought Risk"] else []

/-- The `risk_factors` list after the four rules have run, in source
order: heatwave family, flood, storm family, drought. -/
def risk_factors (w : Weather) : List ℚ :=
  heat_factors w ++ flood_factors w ++ storm_factors w ++ drought_factors w

/-- The `disaster_types` list after the four rules have run, in the same
source order as `risk_factors`. -/
def disaster_types (w : Weather) : List String :=
  heat_types w ++ flood_types w ++ storm_types w ++ drought_types w

/-- Python `max` on a non-empty list; on `[]` (never reached by the
classifier, which guards with `if not risk_factors`) we return `0`. -/
def pymax : List ℚ → ℚ
  | [] => 0
  | a :: l => l.foldl max a

/-- The `risk_level` bucketing of lines 112-117:
`if risk_score >= 0.7: "HIGH" elif risk_score >= 0.4: "MEDIUM" else:
"LOW"`. -/
def bucket (risk_score : ℚ) : String :=
  if risk_score ≥ 0.7 then "HIGH"
  else if risk_score ≥ 0.4 then "MEDIUM"
  else "LOW"

/-- `calculate_disaster_risk` from `src/backend/server.py`: returns
`(risk_level, risk_score, disaster_type)`. -/
def calculate_disaster_risk (w : Weather) : String × ℚ × String :=
  if risk_factors w = [] then
    ("LOW", min 0.1 ((w.temp - 20) / 100 + (100 - w.humidity) / 200),
      "Normal Conditions")
  else
    (bucket (pymax (risk_factors w)), pymax (risk_factors w),
      String.intercalate ", " (disaster_types w))

/-! ### Success paths of the HTTP handlers

The provider response `data` is modelled by the fields the handlers read;
the two Mongo collections are lists that `insert_one` appends to. -/

/-- The fields of the provider JSON that the handlers read: the name,
the country under `sys`, the coordinates under `coord`, the numeric
fields under `main` and `wind` (with `deg` optional, defaulted to 0),
and the description of the first `weather` entry. -/
structure FetchedData where
  name : String
  country : String
  lat : ℚ
  lon : ℚ
  temp : ℚ
  humidity : ℚ
  pressure : ℚ
  wind_speed : ℚ
  wind_deg : Option ℚ
  description : String

/-- The four fields `calculate_disaster_risk` reads from the provider
response. -/
def FetchedData.toWeather (d : FetchedData) : Weather :=
  ⟨d.temp, d.humidity, d.pressure, d.wind_speed⟩

/-- The `WeatherData` pydantic model (generated `id` omitted; the
`timestamp` default is passed in explicitly as `timestamp`). -/
structure WeatherRec where
  city : String
  country : String
  lat : ℚ
  lon : ℚ
  temperature : ℚ
  humidity : ℚ
  pressure : ℚ
  wind_speed : ℚ
  wind_direction : ℚ
  description : String
  timestamp : ℕ
  risk_level : String
  risk_score : ℚ
  deriving DecidableEq

/-- The `DisasterAlert` pydantic model (generated `id` omitted). -/
structure DisasterAlert where
  city : String
  disaster_type : String
  risk_level : String
  message : String
  timestamp : ℕ
  active : Bool
  deriving DecidableEq

/-- The two Mongo collections the weather handlers write:
`db.weather_data` and `db.alerts`, as append-only lists. -/
structure DBState where
  weather_data : List WeatherRec
  alerts : List DisasterAlert
  deriving DecidableEq

/-- The alert message f-string of line 168, which interpolates the
risk level, disaster type, city name, description, temperature and
humidity. -/
def alert_message (risk_level disaster_type name description : String)
    (temp humidity : ℚ) : String :=
  risk_level ++ " risk of " ++ disaster_type ++ " in " ++ name ++
    ". Current conditions: " ++ description ++ ", Temp: " ++ toString temp ++
    "°C, Humidity: " ++ toString humidity ++ "%"

/-- The `DisasterAlert(...)` constructed at lines 164-169 of the city
handler, for provider response `data` at time `now`. -/
def alert_of (data : FetchedData) (now : ℕ) : DisasterAlert :=
  { city := data.name
    disaster_type := (calculate_disaster_risk data.toWeather).2.2
    risk_level := (calculate_disaster_risk data.toWeather).1
    message := alert_message (calculate_disaster_risk data.toWeather).1
      (calculate_disaster_risk data.toWeather).2.2 data.name data.description
      data.temp data.humidity
    timestamp := now
    active := true }

/-- The `WeatherData(...)` object built by both single-location handlers
from the provider response `data` at time `now`. -/
def weather_obj_of (data : FetchedData) (now : ℕ) : WeatherRec :=
  { city := data.name
    country := data.country
    lat := data.lat
    lon := data.lon
    temperature := data.temp
    humidity := data.humidity
    pressure := data.pressure
    wind_speed := data.wind_speed
    wind_direction := data.wind_deg.getD 0
    description := data.description
    timestamp := now
    risk_level := (calculate_disaster_risk data.toWeather).1
    risk_score := (calculate_disaster_risk data.toWeather).2.1 }

/-- Success path of `GET /weather/{city}` (`get_weather_by_city`): store
the snapshot, store an alert when `risk_level in ["HIGH", "MEDIUM"]`,
return the snapshot. -/
def get_weather_by_city (data : FetchedData) (now : ℕ) (st : DBState) :
    DBState × WeatherRec :=
  let weather_obj := weather_obj_of data now
  let st1 : DBState := { st with weather_data := st.weather_data ++ [weather_obj] }
  let st2 : DBState :=
    if (calculate_disaster_risk data.toWeather).1 = "HIGH" ∨
        (calculate_disaster_risk data.toWeather).1 = "MEDIUM" then
      { st1 with alerts := st1.alerts ++ [alert_of data now] }
    else st1
  (st2, weather_obj)

/-- Success path of `GET /weather/coordinates/{lat}/{lon}`
(`get_weather_by_coordinates`): store the snapshot and return it; the
handler has no alert step. -/
def get_weather_by_coordinates (data : FetchedData) (now : ℕ) (st : DBState) :
    DBState × WeatherRec :=
  let weather_obj := weather_obj_of data now
  ({ st with weather_data := st.weather_data ++ [weather_obj] }, weather_obj)

/-- `GET /alerts` (`get_active_alerts`):
`db.alerts.find({"active": True}).sort("timestamp", -1).to_list(100)`. -/
def get_active_alerts (alerts : List DisasterAlert) : List DisasterAlert :=
  (((alerts.filter (fun a => a.active)).mergeSort
      (fun a b => b.timestamp ≤ a.timestamp)).take 100)

/-! ### `GET /weather/multiple` and the route table -/

/-- The dict built per city by `get_weather_multiple_cities` (and, with
hard-coded values, the entries of its demo list). -/
structure CityWeather where
  city : String
  country : String
  lat : ℚ
  lon : ℚ
  temperature : ℚ
  humidity : ℚ
  pressure : ℚ
  wind_speed : ℚ
  description : String
  risk_level : String
  risk_score : ℚ
  disaster_type : String
  deriving DecidableEq

/-- The API key treated as demo mode by line 232. -/
def demo_api_key : String := "374ab74fdf2a6686d8b177cff0b24af0"

/-- Python truthiness of the `WEATHER_API_KEY` environment value:
falsy when unset or empty. -/
def truthy : Option String → Bool
  | none => false
  | some s => !(s == "")

/-- The hard-coded demo response of `get_weather_multiple_cities`. -/
def demo_data : List CityWeather :=
  [{ city := "Mumbai", country := "IN", lat := 19.0760, lon := 72.8777,
     temperature := 42.0, humidity := 85, pressure := 995, wind_speed := 22,
     description := "heavy rain with strong winds", risk_level := "HIGH",
     risk_score := 0.9, disaster_type := "Severe Storm/Cyclone, Extreme Heatwave" },
   { city := "Delhi", country := "IN", lat := 28.6139, lon := 77.2090,
     temperature := 46.0, humidity := 25, pressure := 1025, wind_speed := 8,
     description := "clear sky, very hot", risk_level := "HIGH",
     risk_score := 0.8, disaster_type := "Extreme Heatwave, Drought Risk" },
   { city := "London", country := "GB", lat := 51.5074, lon := -0.1278,
     temperature := 22.0, humidity := 65, pressure := 1015, wind_speed := 5,
     description := "partly cloudy", risk_level := "LOW",
     risk_score := 0.1, disaster_type := "Normal Conditions" },
   { city := "Tokyo", country := "JP", lat := 35.6762, lon := 139.6503,
     temperature := 38.0, humidity := 78, pressure := 1002, wind_speed := 18,
     description := "thunderstorm with heavy rain", risk_level := "MEDIUM",
     risk_score := 0.6, disaster_type := "Storm, Heatwave" },
   { city := "New York", country := "US", lat := 40.7128, lon := -74.0060,
     temperature := 25.0, humidity := 55, pressure := 1012, wind_speed := 7,
     description := "clear sky", risk_level := "LOW",
     risk_score := 0.1, disaster_type := "Normal Conditions" },
   { city := "Sydney", country := "AU", lat := -33.8688, lon := 151.2093,
     temperature := 35.0, humidity := 40, pressure := 1020, wind_speed := 12,
     description := "sunny and dry", risk_level := "MEDIUM",
     risk_score := 0.4, disaster_type := "Drought Risk" },
   { city := "Dubai", country := "AE", lat := 25.2048, lon := 55.2708,
     temperature := 48.0, humidity := 20, pressure := 1018, wind_speed := 15,
     description := "clear sky, extreme heat", risk_level := "HIGH",
     risk_score := 0.8, disaster_type := "Extreme Heatwave" },
   { city := "Singapore", country := "SG", lat := 1.3521, lon := 103.8198,
     temperature := 32.0, humidity := 88, pressure := 998, wind_speed := 25,
     description := "tropical storm approaching", risk_level := "HIGH",
     risk_score := 0.7, disaster_type := "Severe Storm/Cyclone" }]

/-- The fixed city list of lines 284-287. -/
def major_cities : List String :=
  ["Mumbai", "Delhi", "Kolkata", "Chennai", "Bangalore", "Hyderabad",
   "New York", "London", "Tokyo", "Sydney", "Dubai", "Singapore"]

/-- The per-city dict of lines 304-317, whose risk fields come from
`calculate_disaster_risk`. -/
def cityWeatherOf (d : FetchedData) : CityWeather :=
  { city := d.name
    country := d.country
    lat := d.lat
    lon := d.lon
    temperature := d.temp
    humidity := d.humidity
    pressure := d.pressure
    wind_speed := d.wind_speed
    description := d.description
    risk_level := (calculate_disaster_risk d.toWeather).1
    risk_score := (calculate_disaster_risk d.toWeather).2.1
    disaster_type := (calculate_disaster_risk d.toWeather).2.2 }

/-- `get_weather_multiple_cities`, with the external provider modelled
as an oracle `fetch` (`none` = non-200 status or raised exception, both
of which the loop skips with `continue`). -/
def get_weather_multiple_cities (api_key : Option String)
    (fetch : String → Option FetchedData) : List CityWeather :=
  if truthy api_key = false ∨ api_key = some demo_api_key then demo_data
  else major_cities.filterMap (fun c => (fetch c).map cityWeatherOf)

/-- The handlers registered on `api_router`, in declaration order. -/
inductive Handler where
  | weather_city
  | weather_coordinates
  | alerts_route
  | weather_multiple
  | root
  | status_post
  | status_get
  deriving DecidableEq

/-- One segment of a route pattern: a literal, or a path parameter
such as the city, lat and lon parameters of the weather routes. -/
inductive Seg where
  | lit (s : String)
  | param
  deriving DecidableEq

/-- Starlette path matching of one route pattern against the segments
of the request path: literals must match exactly, a parameter matches
any single segment. -/
def segsMatch : List Seg → List String → Bool
  | [], [] => true
  | Seg.lit s :: ps, x :: xs => s == x && segsMatch ps xs
  | Seg.param :: ps, _ :: xs => segsMatch ps xs
  | _, _ => false

/-- The route table of `api_router` in the order the decorators run in
`server.py`: `/weather/{city}` (line 123), then
`/weather/coordinates/{lat}/{lon}` (line 177), `/alerts` (line 222),
`/weather/multiple` (line 228), `/` (line 325), `/status` (lines 329
and 336). -/
def api_routes : List (List Seg × Handler) :=
  [([Seg.lit "weather", Seg.param], Handler.weather_city),
   ([Seg.lit "weather", Seg.lit "coordinates", Seg.param, Seg.param],
     Handler.weather_coordinates),
   ([Seg.lit "alerts"], Handler.alerts_route),
   ([Seg.lit "weather", Seg.lit "multiple"], Handler.weather_multiple),
   ([], Handler.root),
   ([Seg.lit "status"], Handler.status_post),
   ([Seg.lit "status"], Handler.status_get)]

/-- Starlette dispatch: the first route whose pattern matches the path
wins. -/
def dispatch (path : List String) : Option Handler :=
  (api_routes.find? (fun r => segsMatch r.1 path)).map (fun r => r.2)

/-! ### Basic facts about `pymax` and the rule lists -/

lemma self_le_foldl_max (l : List ℚ) : ∀ a : ℚ, a ≤ l.foldl max a := by
  induction l with
  | nil => intro a; simp
  | cons b l ih =>
    intro a
    rw [List.foldl_cons]
    exact le_trans (le_max_left a b) (ih (max a b))

lemma foldl_max_mem (l : List ℚ) : ∀ a : ℚ, l.foldl max a ∈ a :: l := by
  induction l with
  | nil => intro a; simp
  | cons b l ih =>
    intro a
    rw [List.foldl_cons]
    rcases List.mem_cons.mp (ih (max a b)) with h1 | h1
    · rcases max_choice a b with hc | hc
      · rw [h1, hc]; exact List.mem_cons_self _ _
      · rw [h1, hc]; exact List.mem_cons_of_mem _ (List.mem_cons_self _ _)
    · exact List.mem_cons_of_mem _ (List.mem_cons_of_mem _ h1)

lemma le_foldl_max (l : List ℚ) : ∀ a x : ℚ, x ∈ a :: l → x ≤ l.foldl max a := by
  induction l with
  | nil =>
    intro a x hx
    simp only [List.mem_singleton] at hx
    simp [hx]
  | cons b l ih =>
    intro a x hx
    rw [List.foldl_cons]
    rcases List.mem_cons.mp hx with h1 | h1
    · subst h1
      exact le_trans (le_max_left x b) (self_le_foldl_max l (max x b))
    · rcases List.mem_cons.mp h1 with h2 | h2
      · subst h2
        exact le_trans (le_max_right a x) (self_le_foldl_max l (max a x))
      · exact ih (max a b) x (List.mem_cons_of_mem _ h2)

lemma mem_heat_factors {w : Weather} {x : ℚ} (h : x ∈ heat_factors w) :
    x = 0.8 ∨ x = 0.6 := by
  unfold heat_factors at h
  split_ifs at h <;> simp_all

lemma mem_flood_factors {w : Weather} {x : ℚ} (h : x ∈ flood_factors w) :
    x = 0.7 := by
  unfold flood_factors at h
  split_ifs at h <;> simp_all

lemma mem_storm_factors {w : Weather} {x : ℚ} (h : x ∈ storm_factors w) :
    x = 0.9 ∨ x = 0.6 := by
  unfold storm_factors at h
  split_ifs at h <;> simp_all

lemma mem_drought_factors {w : Weather} {x : ℚ} (h : x ∈ drought_factors w) :
    x = 0.5 := by
  unfold drought_factors at h
  split_ifs at h <;> simp_all

/-- Every weight a rule can contribute is one of the five constants of the
source. -/
lemma mem_risk_factors {w : Weather} {x : ℚ} (h : x ∈ risk_factors w) :
    x = 0.5 ∨ x = 0.6 ∨ x = 0.7 ∨ x = 0.8 ∨ x = 0.9 := by
  unfold risk_factors at h
  rcases List.mem_append.mp h with h | h
  · rcases List.mem_append.mp h with h | h
    · rcases List.mem_append.mp h with h | h
      · rcases mem_heat_factors h with h | h <;> tauto
      · have := mem_flood_factors h; tauto
    · rcases mem_storm_factors h with h | h <;> tauto
  · have := mem_drought_factors h; tauto

/-! ### The bucketing of `risk_score` into `risk_level` -/

lemma bucket_eq_HIGH {q : ℚ} : bucket q = "HIGH" ↔ 0.7 ≤ q := by
  unfold bucket
  split_ifs with h1 h2
  · simpa using h1
  · exact iff_of_false (by decide) h1
  · exact iff_of_false (by decide) h1

lemma bucket_eq_MEDIUM {q : ℚ} : bucket q = "MEDIUM" ↔ 0.4 ≤ q ∧ q < 0.7 := by
  unfold bucket
  split_ifs with h1 h2
  · exact iff_of_false (by decide) (by rintro ⟨-, h3⟩; exact absurd h1 (not_le.mpr h3))
  · exact iff_of_true rfl ⟨h2, not_le.mp h1⟩
  · exact iff_of_false (by decide) (by rintro ⟨h3, -⟩; exact h2 h3)

lemma bucket_eq_LOW {q : ℚ} : bucket q = "LOW" ↔ q < 0.4 := by
  unfold bucket
  split_ifs with h1 h2
  · exact iff_of_false (by decide) (by intro h3; linarith)
  · exact iff_of_false (by decide) (by intro h3; exact absurd h2 (not_le.mpr h3))
  · exact iff_of_true rfl (not_le.mp h2)

/-- When at least one rule has triggered, `calculate_disaster_risk`
takes its `else` branch. -/
lemma cdr_of_triggered {w : Weather} (h : risk_factors w ≠ []) :
    calculate_disaster_risk w =
      (bucket (pymax (risk_factors w)), pymax (risk_factors w),
        String.intercalate ", " (disaster_types w)) := by
  unfold calculate_disaster_risk
  rw [if_neg h]

/-- The maximum of the non-empty triggered-weight list is itself a
triggered weight. -/
lemma pymax_mem_risk_factors {w : Weather} (h : risk_factors w ≠ []) :
    pymax (risk_factors w) ∈ risk_factors w := by
  rcases hrf : risk_factors w with - | ⟨a, l⟩
  · exact absurd hrf h
  · simpa [pymax] using foldl_max_mem l a

/-- The maximum of the triggered-weight list dominates every triggered
weight. -/
lemma le_pymax_risk_factors {w : Weather} {x : ℚ} (hx : x ∈ risk_factors w) :
    x ≤ pymax (risk_factors w) := by
  rcases hrf : risk_factors w with - | ⟨a, l⟩
  · rw [hrf] at hx; simp at hx
  · rw [hrf] at hx
    simpa [pymax] using le_foldl_max l a x hx

/-! ### Claim theorems: the risk classifier -/

/-- C1: whenever at least one trigger rule fires, the returned
`risk_score` is the maximum weight among the triggered rules (it is one
of the triggered weights and dominates all of them), lies in [0, 0.9],
and the returned `risk_level` is bucketed from it exactly as HIGH iff
score ≥ 0.7, MEDIUM iff 0.4 ≤ score < 0.7, LOW iff score < 0.4. -/
theorem C1_triggered_score_is_max_weight_and_bucketed (w : Weather)
    (h : risk_factors w ≠ []) :
    (calculate_disaster_risk w).2.1 ∈ risk_factors w ∧
    (∀ x ∈ risk_factors w, x ≤ (calculate_disaster_risk w).2.1) ∧
    (0 ≤ (calculate_disaster_risk w).2.1 ∧
      (calculate_disaster_risk w).2.1 ≤ 0.9) ∧
    ((calculate_disaster_risk w).1 = "HIGH" ↔
      0.7 ≤ (calculate_disaster_risk w).2.1) ∧
    ((calculate_disaster_risk w).1 = "MEDIUM" ↔
      0.4 ≤ (calculate_disaster_risk w).2.1 ∧
        (calculate_disaster_risk w).2.1 < 0.7) ∧
    ((calculate_disaster_risk w).1 = "LOW" ↔
      (calculate_disaster_risk w).2.1 < 0.4) := by
  rw [cdr_of_triggered h]
  refine ⟨pymax_mem_risk_factors h, fun x hx => le_pymax_risk_factors hx,
    ?_, bucket_eq_HIGH, bucket_eq_MEDIUM, bucket_eq_LOW⟩
  rcases mem_risk_factors (pymax_mem_risk_factors h) with h1 | h1 | h1 | h1 | h1 <;>
    rw [show ((bucket (pymax (risk_factors w)), pymax (risk_factors w),
        String.intercalate ", " (disaster_types w)).2.1) =
        pymax (risk_factors w) from rfl, h1] <;>
    constructor <;> norm_num

/-- Witness for C1 at temperature 46, humidity 25, pressure 1025,
wind speed 8, where the heatwave and drought rules fire. -/
theorem C1_witness :
    risk_factors ⟨46, 25, 1025, 8⟩ ≠ [] ∧
    ((calculate_disaster_risk ⟨46, 25, 1025, 8⟩).1 = "HIGH" ↔
      0.7 ≤ (calculate_disaster_risk ⟨46, 25, 1025, 8⟩).2.1) := by
  have h : risk_factors (⟨46, 25, 1025, 8⟩ : Weather) ≠ [] := by
    norm_num [risk_factors, heat_factors, flood_factors, storm_factors,
      drought_factors]
    exact List.cons_ne_nil _ _
  exact ⟨h,
    (C1_triggered_score_is_max_weight_and_bucketed ⟨46, 25, 1025, 8⟩ h).2.2.2.1⟩

/-- C2: when no trigger rule fires, the classifier returns the unclamped
fallback score `min(0.1, (temp − 20)/100 + (100 − humidity)/200)` with
risk_level "LOW" and disaster_type "Normal Conditions"; at
(22, 65, 1015, 5) this gives ("LOW", 0.1, "Normal Conditions"), and at
(0, 100, 1015, 5) the score is negative. -/
theorem C2_fallback_formula_and_example :
    (∀ w : Weather, risk_factors w = [] →
      calculate_disaster_risk w =
        ("LOW", min 0.1 ((w.temp - 20) / 100 + (100 - w.humidity) / 200),
          "Normal Conditions")) ∧
    calculate_disaster_risk ⟨22, 65, 1015, 5⟩ =
      ("LOW", 0.1, "Normal Conditions") ∧
    (calculate_disaster_risk ⟨0, 100, 1015, 5⟩).2.1 < 0 := by
  refine ⟨fun w h => by unfold calculate_disaster_risk; rw [if_pos h], ?_, ?_⟩
  · norm_num [calculate_disaster_risk, risk_factors, heat_factors,
      flood_factors, storm_factors, drought_factors]
  · norm_num [calculate_disaster_risk, risk_factors, heat_factors,
      flood_factors, storm_factors, drought_factors]

/-- Witness for C2 at temperature 22, humidity 65, pressure 1015,
wind speed 5, where no rule fires. -/
theorem C2_witness :
    risk_factors ⟨22, 65, 1015, 5⟩ = [] ∧
    calculate_disaster_risk ⟨22, 65, 1015, 5⟩ =
      ("LOW", min 0.1 (((22 : ℚ) - 20) / 100 + (100 - 65) / 200),
        "Normal Conditions") := by
  have h : risk_factors (⟨22, 65, 1015, 5⟩ : Weather) = [] := by
    norm_num [risk_factors, heat_factors, flood_factors, storm_factors,
      drought_factors]
  exact ⟨h, C2_fallback_formula_and_example.1 ⟨22, 65, 1015, 5⟩ h⟩

/-- C3: with at least one rule triggered, disaster_type is the triggered
labels joined with ", " in the fixed evaluation order heatwave family,
flood, storm family, drought; within each of the two elif families at
most one label appears and the severe branch takes precedence. -/
theorem C3_labels_joined_in_rule_order (w : Weather)
    (h : risk_factors w ≠ []) :
    (calculate_disaster_risk w).2.2 =
      String.intercalate ", "
        (heat_types w ++ flood_types w ++ storm_types w ++ drought_types w) ∧
    (w.temp > 40 → heat_types w = ["Extreme Heatwave"]) ∧
    (¬ w.temp > 40 → w.temp > 35 → heat_types w = ["Heatwave"]) ∧
    (heat_types w).length ≤ 1 ∧
    (w.wind_speed > 20 ∧ w.pressure < 990 →
      storm_types w = ["Severe Storm/Cyclone"]) ∧
    (¬(w.wind_speed > 20 ∧ w.pressure < 990) →
      w.wind_speed > 15 ∧ w.pressure < 1000 → storm_types w = ["Storm"]) ∧
    (storm_types w).length ≤ 1 := by
  refine ⟨?_, ?_, ?_, ?_, ?_, ?_, ?_⟩
  · rw [cdr_of_triggered h]; rfl
  · intro h1; unfold heat_types; rw [if_pos h1]
  · intro h1 h2; unfold heat_types; rw [if_neg h1, if_pos h2]
  · unfold heat_types; split_ifs <;> simp
  · intro h1; unfold storm_types; rw [if_pos h1]
  · intro h1 h2; unfold storm_types; rw [if_neg h1, if_pos h2]
  · unfold storm_types; split_ifs <;> simp

/-- Witness for C3 at temperature 46, humidity 25, pressure 1025,
wind speed 8: disaster_type "Extreme Heatwave, Drought Risk" with
risk_score 0.8 and risk_level HIGH. -/
theorem C3_witness :
    risk_factors ⟨46, 25, 1025, 8⟩ ≠ [] ∧
    (calculate_disaster_risk ⟨46, 25, 1025, 8⟩).2.2 =
      "Extreme Heatwave, Drought Risk" ∧
    calculate_disaster_risk ⟨46, 25, 1025, 8⟩ =
      ("HIGH", 0.8, "Extreme Heatwave, Drought Risk") := by
  have h : risk_factors (⟨46, 25, 1025, 8⟩ : Weather) ≠ [] := by
    norm_num [risk_factors, heat_factors, flood_factors, storm_factors,
      drought_factors]
    exact List.cons_ne_nil _ _
  refine ⟨h, ?_, ?_⟩
  · rw [(C3_labels_joined_in_rule_order ⟨46, 25, 1025, 8⟩ h).1]
    norm_num [heat_types, flood_types, storm_types, drought_types]
    rfl
  · norm_num [calculate_disaster_risk, risk_factors, heat_factors,
      flood_factors, storm_factors, drought_factors, disaster_types,
      heat_types, flood_types, storm_types, drought_types, pymax]
    rw [if_neg (List.cons_ne_nil _ _)]
    norm_num [bucket]
    rfl

/-- C4 counterexample: at (42, 85, 995, 22) the severe-storm branch does
not fire (pressure 995 is not below 990), so the classifier returns
("HIGH", 0.8, "Extreme Heatwave, Flood Risk, Storm"), not risk_score 0.9
with label "Severe Storm/Cyclone" as the claim states. -/
theorem C4_counterexample :
    calculate_disaster_risk ⟨42, 85, 995, 22⟩ =
      ("HIGH", 0.8, "Extreme Heatwave, Flood Risk, Storm") ∧
    (calculate_disaster_risk ⟨42, 85, 995, 22⟩).2.1 ≠ 0.9 ∧
    (calculate_disaster_risk ⟨42, 85, 995, 22⟩).2.2 ≠
      "Extreme Heatwave, Flood Risk, Severe Storm/Cyclone" := by
  have h : calculate_disaster_risk ⟨42, 85, 995, 22⟩ =
      ("HIGH", 0.8, "Extreme Heatwave, Flood Risk, Storm") := by
    norm_num [calculate_disaster_risk, risk_factors, heat_factors,
      flood_factors, storm_factors, drought_factors, disaster_types,
      heat_types, flood_types, storm_types, drought_types, pymax]
    rw [if_neg (List.cons_ne_nil _ _)]
    norm_num [bucket]
    rfl
  refine ⟨h, ?_, ?_⟩
  · rw [h]; norm_num
  · rw [h]; decide

/-- C4 amended: at (42, 85, 995, 22) the heatwave rule fires with
weight 0.8, the flood rule with 0.7 and the non-severe storm branch
with 0.6 (pressure 995 is not < 990), so the result is risk_score 0.8,
risk_level HIGH, disaster_type "Extreme Heatwave, Flood Risk, Storm". -/
theorem C4_amended_storm_branch_not_severe :
    storm_factors ⟨42, 85, 995, 22⟩ = [0.6] ∧
    storm_types ⟨42, 85, 995, 22⟩ = ["Storm"] ∧
    risk_factors ⟨42, 85, 995, 22⟩ = [0.8, 0.7, 0.6] ∧
    calculate_disaster_risk ⟨42, 85, 995, 22⟩ =
      ("HIGH", 0.8, "Extreme Heatwave, Flood Risk, Storm") := by
  refine ⟨?_, ?_, ?_, ?_⟩
  · norm_num [storm_factors]
  · norm_num [storm_types]
  · norm_num [risk_factors, heat_factors, flood_factors, storm_factors,
      drought_factors]
  · norm_num [calculate_disaster_risk, risk_factors, heat_factors,
      flood_factors, storm_factors, drought_factors, disaster_types,
      heat_types, flood_types, storm_types, drought_types, pymax]
    rw [if_neg (List.cons_ne_nil _ _)]
    norm_num [bucket]
    rfl

/-- C5 counterexample: at temperature 10, humidity 90, pressure 1015,
wind speed 5 no rule fires and the fallback score is −1/20 < 0, so
risk_score does not lie in [0, 1]. -/
theorem C5_counterexample :
    (calculate_disaster_risk ⟨10, 90, 1015, 5⟩).2.1 = -(1 / 20) ∧
    (calculate_disaster_risk ⟨10, 90, 1015, 5⟩).2.1 < 0 := by
  have h : (calculate_disaster_risk ⟨10, 90, 1015, 5⟩).2.1 = -(1 / 20) := by
    norm_num [calculate_disaster_risk, risk_factors, heat_factors,
      flood_factors, storm_factors, drought_factors]
  exact ⟨h, by rw [h]; norm_num⟩

/-- C5 amended: risk_score is always at most 1 (indeed at most 0.9), and
lies in [0, 1] whenever at least one rule triggers; only the
zero-trigger fallback can go below 0. -/
theorem C5_amended_score_bounds (w : Weather) :
    (calculate_disaster_risk w).2.1 ≤ 1 ∧
    (risk_factors w ≠ [] →
      0 ≤ (calculate_disaster_risk w).2.1 ∧
        (calculate_disaster_risk w).2.1 ≤ 1) := by
  by_cases h : risk_factors w = []
  · refine ⟨?_, fun hc => absurd h hc⟩
    unfold calculate_disaster_risk
    rw [if_pos h]
    exact le_trans (min_le_left _ _) (by norm_num)
  · rcases mem_risk_factors (pymax_mem_risk_factors h) with h1 | h1 | h1 | h1 | h1 <;>
      rw [cdr_of_triggered h] <;>
      rw [show ((bucket (pymax (risk_factors w)), pymax (risk_factors w),
          String.intercalate ", " (disaster_types w)).2.1) =
          pymax (risk_factors w) from rfl, h1] <;>
    exact ⟨by norm_num, fun hc => ⟨by norm_num, by norm_num⟩⟩

/-- Witness for C5 (amended) at temperature 46, humidity 25,
pressure 1025, wind speed 8. -/
theorem C5_witness :
    risk_factors ⟨46, 25, 1025, 8⟩ ≠ [] ∧
    0 ≤ (calculate_disaster_risk ⟨46, 25, 1025, 8⟩).2.1 ∧
    (calculate_disaster_risk ⟨46, 25, 1025, 8⟩).2.1 ≤ 1 := by
  have h : risk_factors (⟨46, 25, 1025, 8⟩ : Weather) ≠ [] := by
    norm_num [risk_factors, heat_factors, flood_factors, storm_factors,
      drought_factors]
    exact List.cons_ne_nil _ _
  exact ⟨h, (C5_amended_score_bounds ⟨46, 25, 1025, 8⟩).2 h⟩

/-! ### Claim theorems: the handlers -/

/-- C6: the city handler persists an alert exactly when the classifier
returns MEDIUM or HIGH (never on LOW); the alert carries the
disaster_type and risk_level of the classifier verbatim and a message
embedding the city name, description, temperature and humidity; the
snapshot is always persisted. -/
theorem C6_alert_iff_medium_or_high (data : FetchedData) (now : ℕ)
    (st : DBState) :
    ((calculate_disaster_risk data.toWeather).1 = "HIGH" ∨
        (calculate_disaster_risk data.toWeather).1 = "MEDIUM" →
      (get_weather_by_city data now st).1.alerts =
        st.alerts ++ [alert_of data now]) ∧
    (¬((calculate_disaster_risk data.toWeather).1 = "HIGH" ∨
        (calculate_disaster_risk data.toWeather).1 = "MEDIUM") →
      (get_weather_by_city data now st).1.alerts = st.alerts) ∧
    ((calculate_disaster_risk data.toWeather).1 = "LOW" →
      (get_weather_by_city data now st).1.alerts = st.alerts) ∧
    (alert_of data now).disaster_type =
      (calculate_disaster_risk data.toWeather).2.2 ∧
    (alert_of data now).risk_level = (calculate_disaster_risk data.toWeather).1 ∧
    (∃ a b, (alert_of data now).message = a ++ data.name ++ b) ∧
    (∃ a b, (alert_of data now).message = a ++ data.description ++ b) ∧
    (∃ a b, (alert_of data now).message = a ++ toString data.temp ++ b) ∧
    (∃ a b, (alert_of data now).message = a ++ toString data.humidity ++ b) ∧
    (get_weather_by_city data now st).1.weather_data =
      st.weather_data ++ [weather_obj_of data now] := by
  refine ⟨?_, ?_, ?_, rfl, rfl, ?_, ?_, ?_, ?_, ?_⟩
  · intro h1
    simp only [get_weather_by_city]
    rw [if_pos h1]
  · intro h1
    simp only [get_weather_by_city]
    rw [if_neg h1]
  · intro h1
    simp only [get_weather_by_city]
    rw [if_neg (by rw [h1]; decide)]
  · exact ⟨(calculate_disaster_risk data.toWeather).1 ++ " risk of " ++
      (calculate_disaster_risk data.toWeather).2.2 ++ " in ",
      ". Current conditions: " ++ data.description ++ ", Temp: " ++
        toString data.temp ++ "°C, Humidity: " ++ toString data.humidity ++ "%",
      by simp [alert_of, alert_message, String.append_assoc]⟩
  · exact ⟨(calculate_disaster_risk data.toWeather).1 ++ " risk of " ++
      (calculate_disaster_risk data.toWeather).2.2 ++ " in " ++ data.name ++
        ". Current conditions: ",
      ", Temp: " ++ toString data.temp ++ "°C, Humidity: " ++
        toString data.humidity ++ "%",
      by simp [alert_of, alert_message, String.append_assoc]⟩
  · exact ⟨(calculate_disaster_risk data.toWeather).1 ++ " risk of " ++
      (calculate_disaster_risk data.toWeather).2.2 ++ " in " ++ data.name ++
        ". Current conditions: " ++ data.description ++ ", Temp: ",
      "°C, Humidity: " ++ toString data.humidity ++ "%",
      by simp [alert_of, alert_message, String.append_assoc]⟩
  · exact ⟨(calculate_disaster_risk data.toWeather).1 ++ " risk of " ++
      (calculate_disaster_risk data.toWeather).2.2 ++ " in " ++ data.name ++
        ". Current conditions: " ++ data.description ++ ", Temp: " ++
        toString data.temp ++ "°C, Humidity: ",
      "%",
      by simp [alert_of, alert_message, String.append_assoc]⟩
  · simp only [get_weather_by_city]
    split_ifs <;> rfl

/-- Witness for C6: a HIGH-risk fetch for Mumbai appends exactly one
alert to an empty store. -/
theorem C6_witness :
    (calculate_disaster_risk (FetchedData.toWeather
      ⟨"Mumbai", "IN", 19, 72, 42, 85, 995, 22, some 0, "heavy rain"⟩)).1 =
        "HIGH" ∧
    (get_weather_by_city
        ⟨"Mumbai", "IN", 19, 72, 42, 85, 995, 22, some 0, "heavy rain"⟩ 0
        ⟨[], []⟩).1.alerts =
      [] ++ [alert_of
        ⟨"Mumbai", "IN", 19, 72, 42, 85, 995, 22, some 0, "heavy rain"⟩ 0] := by
  have h1 : (calculate_disaster_risk (FetchedData.toWeather
      ⟨"Mumbai", "IN", 19, 72, 42, 85, 995, 22, some 0, "heavy rain"⟩)).1 =
        "HIGH" := by
    norm_num [FetchedData.toWeather, calculate_disaster_risk, risk_factors,
      heat_factors, flood_factors, storm_factors, drought_factors, pymax]
    rw [if_neg (List.cons_ne_nil _ _)]
    norm_num [bucket]
  exact ⟨h1, (C6_alert_iff_medium_or_high
    ⟨"Mumbai", "IN", 19, 72, 42, 85, 995, 22, some 0, "heavy rain"⟩ 0
    ⟨[], []⟩).1 (Or.inl h1)⟩

/-- C7: the coordinates handler never writes to the alerts store; it
appends only the snapshot (carrying the risk fields the classifier
returned) and
returns it. -/
theorem C7_coordinates_handler_leaves_alerts_unchanged (data : FetchedData)
    (now : ℕ) (st : DBState) :
    (get_weather_by_coordinates data now st).1.alerts = st.alerts ∧
    (get_weather_by_coordinates data now st).1.weather_data =
      st.weather_data ++ [weather_obj_of data now] ∧
    (get_weather_by_coordinates data now st).2 = weather_obj_of data now ∧
    (get_weather_by_coordinates data now st).2.risk_level =
      (calculate_disaster_risk data.toWeather).1 ∧
    (get_weather_by_coordinates data now st).2.risk_score =
      (calculate_disaster_risk data.toWeather).2.1 :=
  ⟨rfl, rfl, rfl, rfl, rfl⟩

/-- C8: the route table dispatches a GET for path `/weather/multiple` to
`get_weather_by_city` (the `/weather/{city}` route is registered first),
not to `get_weather_multiple_cities`; the handler itself returns the
eight-entry demo list when the key is unset (or is the demo key) and
otherwise maps the twelve fixed cities through the fetcher, keeping
exactly the successful ones in order. -/
theorem C8_multiple_route_shadowed_but_handler_demo :
    dispatch ["weather", "multiple"] = some Handler.weather_city ∧
    Handler.weather_city ≠ Handler.weather_multiple ∧
    (∀ fetch : String → Option FetchedData,
      get_weather_multiple_cities none fetch = demo_data) ∧
    (∀ fetch : String → Option FetchedData,
      get_weather_multiple_cities (some demo_api_key) fetch = demo_data) ∧
    demo_data.length = 8 ∧
    major_cities.length = 12 ∧
    (∀ k : String, truthy (some k) = true → k ≠ demo_api_key →
      ∀ fetch : String → Option FetchedData,
        get_weather_multiple_cities (some k) fetch =
          major_cities.filterMap (fun c => (fetch c).map cityWeatherOf)) := by
  refine ⟨rfl, by decide, fun fetch => rfl, fun fetch => rfl, rfl, rfl, ?_⟩
  intro k hk hkd fetch
  have hcond : ¬(truthy (some k) = false ∨ some k = some demo_api_key) := by
    rintro (h1 | h1)
    · rw [hk] at h1
      exact absurd h1 (by decide)
    · exact hkd (Option.some.inj h1)
  unfold get_weather_multiple_cities
  rw [if_neg hcond]

/-- Witness for C8 with a configured non-demo key and a fetcher that
fails for every city: the handler returns the empty list. -/
theorem C8_witness :
    truthy (some "k3y") = true ∧ "k3y" ≠ demo_api_key ∧
    get_weather_multiple_cities (some "k3y") (fun _ => none) = [] := by
  refine ⟨rfl, by decide, ?_⟩
  rw [C8_multiple_route_shadowed_but_handler_demo.2.2.2.2.2.2 "k3y" rfl
    (by decide) (fun _ => none)]
  rfl

/-- C9: `/alerts` returns at most 100 records, each of them an active
alert from the store, sorted by timestamp descending. -/
theorem C9_alerts_active_sorted_capped (alerts : List DisasterAlert) :
    (get_active_alerts alerts).length ≤ 100 ∧
    (∀ a ∈ get_active_alerts alerts, a.active = true ∧ a ∈ alerts) ∧
    (get_active_alerts alerts).Pairwise
      (fun a b => b.timestamp ≤ a.timestamp) := by
  unfold get_active_alerts
  refine ⟨List.length_take_le _ _, ?_, ?_⟩
  · intro a ha
    have h1 := List.take_subset _ _ ha
    have h2 := (List.mergeSort_perm
      (alerts.filter (fun a => a.active)) _).mem_iff.mp h1
    have h3 := List.mem_filter.mp h2
    exact ⟨by simpa using h3.2, h3.1⟩
  · apply List.Pairwise.sublist (List.take_sublist _ _)
    have hs := @List.sorted_mergeSort DisasterAlert
      (fun a b : DisasterAlert => decide (b.timestamp ≤ a.timestamp))
      (fun a b c hab hbc => by
        simp only [decide_eq_true_eq] at hab hbc ⊢
        omega)
      (fun a b => by simpa using Nat.le_total b.timestamp a.timestamp)
      (alerts.filter (fun a => a.active))
    exact hs.imp (fun h => by simpa using h)

/-- C10: when at least one rule triggers the score is one of
{0.5, 0.6, 0.7, 0.8, 0.9}, hence at least 0.5, so risk_level is MEDIUM
or HIGH; "LOW" is returned exactly when no rule triggers. -/
theorem C10_low_iff_no_trigger (w : Weather) :
    (risk_factors w ≠ [] →
      ((calculate_disaster_risk w).2.1 = 0.5 ∨
        (calculate_disaster_risk w).2.1 = 0.6 ∨
        (calculate_disaster_risk w).2.1 = 0.7 ∨
        (calculate_disaster_risk w).2.1 = 0.8 ∨
        (calculate_disaster_risk w).2.1 = 0.9) ∧
      0.5 ≤ (calculate_disaster_risk w).2.1 ∧
      ((calculate_disaster_risk w).1 = "MEDIUM" ∨
        (calculate_disaster_risk w).1 = "HIGH")) ∧
    ((calculate_disaster_risk w).1 = "LOW" ↔ risk_factors w = []) := by
  by_cases h : risk_factors w = []
  · refine ⟨fun hc => absurd h hc, ?_⟩
    unfold calculate_disaster_risk
    rw [if_pos h]
    simpa using h
  · have h05 : (0.5 : ℚ) ≤ pymax (risk_factors w) := by
      rcases mem_risk_factors (pymax_mem_risk_factors h) with h1 | h1 | h1 | h1 | h1 <;>
        rw [h1] <;> norm_num
    rw [cdr_of_triggered h]
    refine ⟨fun hc => ⟨mem_risk_factors (pymax_mem_risk_factors h), h05, ?_⟩, ?_⟩
    · unfold bucket
      split_ifs with h1 h2
      · exact Or.inr rfl
      · exact Or.inl rfl
      · exact absurd (by linarith : (0.4 : ℚ) ≤ pymax (risk_factors w)) h2
    · refine iff_of_false ?_ h
      rw [show ((bucket (pymax (risk_factors w)), pymax (risk_factors w),
          String.intercalate ", " (disaster_types w)).1) =
          bucket (pymax (risk_factors w)) from rfl, bucket_eq_LOW]
      intro h1
      linarith

/-- Witness for C10 at temperature 46, humidity 25, pressure 1025,
wind speed 8. -/
theorem C10_witness :
    risk_factors ⟨46, 25, 1025, 8⟩ ≠ [] ∧
    ((calculate_disaster_risk ⟨46, 25, 1025, 8⟩).1 = "MEDIUM" ∨
      (calculate_disaster_risk ⟨46, 25, 1025, 8⟩).1 = "HIGH") := by
  have h : risk_factors (⟨46, 25, 1025, 8⟩ : Weather) ≠ [] := by
    norm_num [risk_factors, heat_factors, flood_factors, storm_factors,
      drought_factors]
    exact List.cons_ne_nil _ _
  exact ⟨h, ((C10_low_iff_no_trigger ⟨46, 25, 1025, 8⟩).1 h).2.2⟩

end Server
